import Mathlib

/-!
Shallow embedding of the sheet-backed record store of the EmployeeDashboard
repository (src/lib/google-sheets.ts, given as src/unnamed/part_004) and the
POST /api/projects/add route handler
(src/src/app/api/projects/export/route.ts, second document).

Modelling conventions:
* A spreadsheet data-region row is a `List String` (the cells of sheet row
  `i + 2`, the read range being `A2:Z1000`).  A missing cell reads as `""`,
  matching JavaScript's `row[i] || default` with `undefined` falsy.
* `Partial<ProjectEntry>` fields of string type are modelled as `String`
  with `""` standing for both the empty string and `undefined`: every guard
  the code applies to them (`!x`, `x || d`, `x && ...`) treats the two
  alike.  The numeric fields are `Option JsNum`, since the code does
  distinguish `undefined` from a number there (`x !== undefined`, `x?.`).
* JavaScript numbers produced by `parseInt` are modelled by `JsNum`:
  either `NaN` or an integer.
* The remote Sheets API is modelled by `SheetEnv`: flags for whether the
  metadata fetch succeeds, whether the spreadsheet has a first worksheet,
  and whether the values fetch succeeds, plus the data-region rows.  Write
  calls are modelled as succeeding; each effectful store operation returns
  its result, the list of remote calls it issued in order, and the final
  data region.
-/

namespace EmployeeDashboard

/-- A JavaScript number as produced by `parseInt`: `NaN` or an integer. -/
inductive JsNum where
  | nan : JsNum
  | int (n : Int) : JsNum
deriving DecidableEq

/-- Hex digit value, `none` for a non-hex-digit. -/
def hexDigitVal (c : Char) : Option Nat :=
  if c.isDigit then some (c.toNat - '0'.toNat)
  else if 'a' ≤ c ∧ c ≤ 'f' then some (c.toNat - 'a'.toNat + 10)
  else if 'A' ≤ c ∧ c ≤ 'F' then some (c.toNat - 'A'.toNat + 10)
  else none

/-- Fold a digit list in the given radix. -/
def radixVal (radix : Nat) (ds : List Nat) : Nat :=
  ds.foldl (fun a d => a * radix + d) 0

/-- Model of JavaScript `parseInt(s)` (radix unspecified): skip leading
whitespace, an optional sign, then an optional `0x`/`0X` prefix switching to
hexadecimal; parse the leading digit run; an empty run gives `NaN`. -/
def jsParseInt (s : String) : JsNum :=
  let t := s.toList.dropWhile Char.isWhitespace
  let (sgn, t1) : Int × List Char :=
    match t with
    | '-' :: r => (-1, r)
    | '+' :: r => (1, r)
    | _ => (1, t)
  match t1 with
  | '0' :: 'x' :: r =>
    let ds := (r.takeWhile (fun c => (hexDigitVal c).isSome)).filterMap hexDigitVal
    if ds.isEmpty then JsNum.nan else JsNum.int (sgn * radixVal 16 ds)
  | '0' :: 'X' :: r =>
    let ds := (r.takeWhile (fun c => (hexDigitVal c).isSome)).filterMap hexDigitVal
    if ds.isEmpty then JsNum.nan else JsNum.int (sgn * radixVal 16 ds)
  | _ =>
    let ds := (t1.takeWhile Char.isDigit).map (fun c => c.toNat - '0'.toNat)
    if ds.isEmpty then JsNum.nan else JsNum.int (sgn * radixVal 10 ds)

/-- Model of JavaScript `Number.prototype.toString` on a `parseInt` result:
`NaN` renders as `"NaN"`, an integer as its decimal form (`-0` cannot arise
from the `Int` model, matching `(-0).toString() = "0"`). -/
def JsNum.toStr : JsNum → String
  | JsNum.nan => "NaN"
  | JsNum.int n => toString n

/-- The `ProjectEntry` interface (part_004 lines 10-23).  The enum-typed
fields are `String` at runtime: the code casts whatever cell string is
present (`row[4] as ProjectEntry["status"]`), so unrecognized values are
carried through.  Used both for mapped records and for
`Partial<ProjectEntry>` inputs (see the conventions above). -/
structure ProjectEntry where
  email : String
  name : String
  projectTitle : String
  projectDescription : String
  status : String
  deadline : String
  lastUpdated : String
  priority : String
  department : String
  estimatedHours : Option JsNum
  actualHours : Option JsNum
  notes : String
deriving DecidableEq

/-- Cell `i` of a row, `""` when absent (JS `row[i]` being `undefined`). -/
def cellAt (cells : List String) (i : Nat) : String :=
  cells.getD i ""

/-- The per-row mapping of `getAllProjects` (part_004 lines 120-134):
positional mapping with `|| default` fallbacks; the numeric cells go through
`parseInt` when the cell is truthy (non-empty) and are `undefined`
otherwise. -/
def rowToRecord (cells : List String) : ProjectEntry :=
  { email := cellAt cells 0
    name := cellAt cells 1
    projectTitle := cellAt cells 2
    projectDescription := cellAt cells 3
    status := if cellAt cells 4 = "" then "Not Started" else cellAt cells 4
    deadline := cellAt cells 5
    lastUpdated := cellAt cells 6
    priority := if cellAt cells 7 = "" then "Medium" else cellAt cells 7
    department := cellAt cells 8
    estimatedHours :=
      if cellAt cells 9 = "" then none else some (jsParseInt (cellAt cells 9))
    actualHours :=
      if cellAt cells 10 = "" then none else some (jsParseInt (cellAt cells 10))
    notes := cellAt cells 11 }

/-- `x?.toString() || ""` on a numeric field (part_004 lines 203-204). -/
def hoursCell : Option JsNum → String
  | none => ""
  | some v => v.toStr

/-- The `rowData` array built by `addOrUpdateProject` (part_004 lines
193-206).  `today` stands for `new Date().toISOString().split('T')[0]`, the
current date rendered as `YYYY-MM-DD`. -/
def recordToRow (pd : ProjectEntry) (today : String) : List String :=
  [ pd.email,
    pd.name,
    pd.projectTitle,
    pd.projectDescription,
    if pd.status = "" then "Not Started" else pd.status,
    pd.deadline,
    today,
    if pd.priority = "" then "Medium" else pd.priority,
    pd.department,
    hoursCell pd.estimatedHours,
    hoursCell pd.actualHours,
    pd.notes ]

/-- State of the remote spreadsheet service as seen by one operation:
whether the metadata fetch (`spreadsheets.get`) succeeds, whether a first
worksheet exists, whether the values fetch (`spreadsheets.values.get`)
succeeds, and the data-region rows (sheet rows 2..). -/
structure SheetEnv where
  metadataOk : Bool
  hasSheet : Bool
  valuesOk : Bool
  rows : List (List String)
deriving DecidableEq

/-- One remote Sheets API call, in the order the code issues them. -/
inductive RemoteCall where
  | getMetadata : RemoteCall
  | getValues : RemoteCall
  | updateRow (rowNumber : Nat) (values : List String) : RemoteCall
  | appendRow (values : List String) : RemoteCall
  | deleteRow (startIndex endIndex : Nat) : RemoteCall
deriving DecidableEq

/-- Is a remote call a mutation of the sheet? -/
def RemoteCall.isWrite : RemoteCall → Bool
  | RemoteCall.updateRow _ _ => true
  | RemoteCall.appendRow _ => true
  | RemoteCall.deleteRow _ _ => true
  | _ => false

/-- The row filter of `getAllProjects` (part_004 line 119):
`row.length > 0 && row[0]`, with JS string truthiness. -/
def rowKept (r : List String) : Bool :=
  !r.isEmpty && !(cellAt r 0 == "")

/-- Mapped records of a data region: kept rows through `rowToRecord`. -/
def sheetRecords (rows : List (List String)) : List ProjectEntry :=
  (rows.filter rowKept).map rowToRecord

/-- `getAllProjects` (part_004 lines 91-143): fetch metadata, resolve the
first worksheet, fetch `A2:Z1000`, filter and map; any failure is caught
and yields `[]` (lines 138-142). -/
def getAllProjects (env : SheetEnv) : List ProjectEntry :=
  if env.metadataOk && env.hasSheet && env.valuesOk then
    sheetRecords env.rows
  else []

/-- Remote calls `getAllProjects` issues: the metadata fetch always; the
values fetch only once a worksheet was resolved. -/
def getAllProjectsCalls (env : SheetEnv) : List RemoteCall :=
  RemoteCall.getMetadata ::
    (if env.metadataOk && env.hasSheet then [RemoteCall.getValues] else [])

/-- `getUserProjects` (part_004 lines 150-158): `getAllProjects` filtered
by strict equality on the email field. -/
def getUserProjects (env : SheetEnv) (userEmail : String) : List ProjectEntry :=
  (getAllProjects env).filter (fun project => project.email == userEmail)

/-- The identity key of a record: its (email, projectTitle) pair. -/
def recordKey (p : ProjectEntry) : String × String :=
  (p.email, p.projectTitle)

/-- The match predicate of `addOrUpdateProject`/`deleteProject`
(part_004 lines 187-190 and 261-263). -/
def keyMatches (email title : String) (p : ProjectEntry) : Bool :=
  p.email == email && p.projectTitle == title

/-- At most one record per (email, projectTitle) pair. -/
def keysUnique (l : List ProjectEntry) : Prop :=
  (l.map recordKey).Nodup

instance (l : List ProjectEntry) : Decidable (keysUnique l) := by
  unfold keysUnique; infer_instance

/-- Equality of thrown-or-ok results is decidable. -/
def exceptEqDec : (a b : Except String Unit) → Decidable (a = b)
  | Except.ok (), Except.ok () => isTrue rfl
  | Except.ok (), Except.error _ => isFalse (by simp)
  | Except.error _, Except.ok () => isFalse (by simp)
  | Except.error s, Except.error t =>
    if h : s = t then isTrue (by rw [h]) else isFalse (by simp [h])

instance : DecidableEq (Except String Unit) := exceptEqDec

/-- Outcome of an effectful store operation: the thrown-or-ok result, the
remote calls issued in order, and the final data region. -/
structure StoreOutcome where
  result : Except String Unit
  calls : List RemoteCall
  rows : List (List String)
deriving DecidableEq

/-- `addOrUpdateProject` (part_004 lines 165-237): metadata fetch and
worksheet resolution first (lines 171-178), then the required-fields check
(lines 181-183), then `getAllProjects` and the linear scan (lines 186-190),
then either an in-place range update at row `index + 2` or an append
(lines 208-232).  Write calls are modelled as succeeding. -/
def addOrUpdateProject (env : SheetEnv) (pd : ProjectEntry) (today : String) :
    StoreOutcome :=
  if !env.metadataOk then
    { result := Except.error "metadata fetch failed",
      calls := [RemoteCall.getMetadata], rows := env.rows }
  else if !env.hasSheet then
    { result := Except.error "No sheets found in the spreadsheet",
      calls := [RemoteCall.getMetadata], rows := env.rows }
  else if pd.email = "" ∨ pd.projectTitle = "" then
    { result := Except.error "Email and project title are required",
      calls := [RemoteCall.getMetadata], rows := env.rows }
  else
    let allProjects := getAllProjects env
    let calls := RemoteCall.getMetadata :: getAllProjectsCalls env
    let rowData := recordToRow pd today
    match allProjects.findIdx? (keyMatches pd.email pd.projectTitle) with
    | some idx =>
      { result := Except.ok (),
        calls := calls ++ [RemoteCall.updateRow (idx + 2) rowData],
        rows := env.rows.set idx rowData }
    | none =>
      { result := Except.ok (),
        calls := calls ++ [RemoteCall.appendRow rowData],
        rows := env.rows ++ [rowData] }

/-- `deleteProject` (part_004 lines 244-294): metadata fetch and worksheet
resolution, `getAllProjects`, linear scan; no match throws "Project not
found" (lines 265-267); a match issues a row deletion of 0-based sheet
index `rowNumber - 1 = index + 1` (lines 270-287). -/
def deleteProject (env : SheetEnv) (userEmail projectTitle : String) :
    StoreOutcome :=
  if !env.metadataOk then
    { result := Except.error "metadata fetch failed",
      calls := [RemoteCall.getMetadata], rows := env.rows }
  else if !env.hasSheet then
    { result := Except.error "No sheets found in the spreadsheet",
      calls := [RemoteCall.getMetadata], rows := env.rows }
  else
    let allProjects := getAllProjects env
    let calls := RemoteCall.getMetadata :: getAllProjectsCalls env
    match allProjects.findIdx? (keyMatches userEmail projectTitle) with
    | none =>
      { result := Except.error "Project not found", calls := calls,
        rows := env.rows }
    | some idx =>
      { result := Except.ok (),
        calls := calls ++ [RemoteCall.deleteRow (idx + 1) (idx + 2)],
        rows := env.rows.eraseIdx idx }

/-- The statistics `getProjectStats` computes (part_004 lines 480-527),
restricted to the count fields and the completion rate, which is exact
rational arithmetic here.  The time-dependent overdue count and the
department/priority grouping maps are not referenced by any claim and are
omitted. -/
structure ProjectStats where
  totalProjects : Nat
  completedProjects : Nat
  inProgressProjects : Nat
  notStartedProjects : Nat
  onHoldProjects : Nat
  completionRate : ℚ
deriving DecidableEq

/-- `getProjectStats` (part_004 lines 480-527): counts over
`getAllProjects` and `completionRate = totalProjects > 0 ?
(completedProjects / totalProjects) * 100 : 0` (line 521). -/
def getProjectStats (env : SheetEnv) : ProjectStats :=
  let projects := getAllProjects env
  let totalProjects := projects.length
  let completedProjects := (projects.filter (fun p => p.status == "Completed")).length
  { totalProjects := totalProjects
    completedProjects := completedProjects
    inProgressProjects := (projects.filter (fun p => p.status == "In Progress")).length
    notStartedProjects := (projects.filter (fun p => p.status == "Not Started")).length
    onHoldProjects := (projects.filter (fun p => p.status == "On Hold")).length
    completionRate :=
      if totalProjects > 0 then
        ((completedProjects : ℚ) / (totalProjects : ℚ)) * 100
      else 0 }

/-- The authenticated session as the route sees it: the user's email and
display name, and the role injected at authentication time. -/
structure Session where
  email : String
  name : String
  role : String
deriving DecidableEq

/-- What the POST /api/projects/add handler decides before any store call:
an early JSON response with a status code, or a call to
`addOrUpdateProject` with the (possibly rewritten) body. -/
inductive RouteOutcome where
  | response (status : Nat) (error : String) : RouteOutcome
  | callUpsert (pd : ProjectEntry) : RouteOutcome
deriving DecidableEq

/-- Model of JavaScript `String.prototype.trim`: strip leading and trailing
whitespace. -/
def jsTrim (s : String) : String :=
  String.mk (((s.toList.dropWhile Char.isWhitespace).reverse.dropWhile
    Char.isWhitespace).reverse)

/-- The valid statuses list of the route handler (route file line 147). -/
def validStatuses : List String :=
  ["Not Started", "In Progress", "Completed", "On Hold"]

/-- The valid priorities list of the route handler (route file line 148). -/
def validPriorities : List String :=
  ["Low", "Medium", "High"]

/-- Number of days in a month of the Gregorian calendar. -/
def daysInMonth (year month : Nat) : Nat :=
  if month = 2 then
    if year % 4 = 0 ∧ (year % 100 ≠ 0 ∨ year % 400 = 0) then 29 else 28
  else if month = 4 ∨ month = 6 ∨ month = 9 ∨ month = 11 then 30
  else 31

/-- Model of `!isNaN(new Date(s).getTime())` for the `YYYY-MM-DD` strings
this route documents (its error message names that format): ten characters,
digits with dashes at positions 4 and 7, month and day in calendar range. -/
def jsDateValid (s : String) : Bool :=
  let cs := s.toList
  cs.length = 10 &&
    (cs.take 4).all Char.isDigit &&
    cs.getD 4 ' ' == '-' &&
    ((cs.drop 5).take 2).all Char.isDigit &&
    cs.getD 7 ' ' == '-' &&
    ((cs.drop 8).take 2).all Char.isDigit &&
    (let m := radixVal 10 (((cs.drop 5).take 2).map (fun c => c.toNat - '0'.toNat))
     let d := radixVal 10 (((cs.drop 8).take 2).map (fun c => c.toNat - '0'.toNat))
     let y := radixVal 10 ((cs.take 4).map (fun c => c.toNat - '0'.toNat))
     1 ≤ m && m ≤ 12 && 1 ≤ d && d ≤ daysInMonth y m)

/-- The route's check on a numeric field (route file lines 176-190):
`x !== undefined && (isNaN(x) || x < 0)`. -/
def badHours : Option JsNum → Bool
  | none => false
  | some JsNum.nan => true
  | some (JsNum.int n) => n < 0

/-- POST /api/projects/add (route file, second document, lines 106-213):
session check, title check (`!projectData.projectTitle?.trim()`), then the
security check for non-hr users — a body email that is truthy and differs
from the session email is answered 403, otherwise email and name are forced
to the authenticated identity — then the enum, deadline and hours
validations, then the call to `addOrUpdateProject`. -/
def postAddProject (session : Option Session) (pd : ProjectEntry) :
    RouteOutcome :=
  match session with
  | none => RouteOutcome.response 401 "Authentication required"
  | some s =>
    if s.email = "" then RouteOutcome.response 401 "Authentication required"
    else if jsTrim pd.projectTitle = "" then
      RouteOutcome.response 400 "Project title is required"
    else if s.role ≠ "hr" ∧ pd.email ≠ "" ∧ pd.email ≠ s.email then
      RouteOutcome.response 403 "You can only update your own projects"
    else
      let pd :=
        if s.role ≠ "hr" then { pd with email := s.email, name := s.name }
        else pd
      if pd.status ≠ "" ∧ ¬ validStatuses.contains pd.status then
        RouteOutcome.response 400
          "Invalid status. Must be one of: Not Started, In Progress, Completed, On Hold"
      else if pd.priority ≠ "" ∧ ¬ validPriorities.contains pd.priority then
        RouteOutcome.response 400 "Invalid priority. Must be one of: Low, Medium, High"
      else if pd.deadline ≠ "" ∧ ¬ jsDateValid pd.deadline then
        RouteOutcome.response 400 "Invalid deadline format. Please use YYYY-MM-DD"
      else if badHours pd.estimatedHours then
        RouteOutcome.response 400 "Estimated hours must be a positive number"
      else if badHours pd.actualHours then
        RouteOutcome.response 400 "Actual hours must be a positive number"
      else RouteOutcome.callUpsert pd

/-! ## Helper lemmas -/

theorem rowKept_of_cell {r : List String} (h : cellAt r 0 ≠ "") :
    rowKept r = true := by
  cases r with
  | nil => exact absurd rfl h
  | cons a l =>
    have ha : a ≠ "" := h
    simp [rowKept, cellAt, ha]

theorem sheetRecords_of_kept {rows : List (List String)}
    (h : ∀ r ∈ rows, cellAt r 0 ≠ "") :
    sheetRecords rows = rows.map rowToRecord := by
  unfold sheetRecords
  rw [List.filter_eq_self.mpr (fun r hr => rowKept_of_cell (h r hr))]

theorem recordKey_rowToRecord_recordToRow (pd : ProjectEntry) (today : String) :
    recordKey (rowToRecord (recordToRow pd today)) =
      (pd.email, pd.projectTitle) :=
  rfl

theorem keyMatches_eq_true_iff {e t : String} {p : ProjectEntry} :
    keyMatches e t p = true ↔ p.email = e ∧ p.projectTitle = t := by
  simp [keyMatches]

theorem list_set_self {α : Type} :
    ∀ (l : List α) (i : Nat) (h : i < l.length), l.set i l[i] = l
  | _ :: _, 0, _ => rfl
  | a :: l, i + 1, h =>
    congrArg (a :: ·) (list_set_self l i (Nat.lt_of_succ_lt_succ h))

/-! ## Claim C2 -/

/-- Claim C2, counterexample: `rowToRecord` on a row whose cell 9 is the
present, non-numeric string "abc" does not set `estimatedHours` to
`undefined` — it sets it to `NaN`. -/
theorem rowToRecord_nonnumeric_cell_not_undefined :
    (rowToRecord ["a@b", "N", "T", "", "", "", "", "", "", "abc", "", ""]).estimatedHours
        = some JsNum.nan ∧
      (rowToRecord ["a@b", "N", "T", "", "", "", "", "", "", "abc", "", ""]).estimatedHours
        ≠ none := by
  decide

/-- Claim C2 (amended): for every row and each numeric cell independently
(position 9 for `estimatedHours`, position 10 for `actualHours`), a cell
that is present and non-empty but does not parse to a number makes that
field `NaN`, not `undefined`; the row is still mapped, never failed.
(`undefined` arises only from an empty or absent cell.) -/
theorem rowToRecord_nonnumeric_cells_nan (cells : List String) :
    (cellAt cells 9 ≠ "" → jsParseInt (cellAt cells 9) = JsNum.nan →
        (rowToRecord cells).estimatedHours = some JsNum.nan ∧
          (rowToRecord cells).estimatedHours ≠ none) ∧
      (cellAt cells 10 ≠ "" → jsParseInt (cellAt cells 10) = JsNum.nan →
        (rowToRecord cells).actualHours = some JsNum.nan ∧
          (rowToRecord cells).actualHours ≠ none) := by
  constructor
  · intro h hn
    simp [rowToRecord, h, hn]
  · intro h hn
    simp [rowToRecord, h, hn]

/-- Witness for claim C2's amended theorem at a concrete row whose
estimated-hours cell alone is non-numeric (actual hours is the numeric
"5"). -/
theorem rowToRecord_nonnumeric_cells_nan_witness :
    (rowToRecord ["a@b", "N", "T", "", "", "", "", "", "", "abc", "5", ""]).estimatedHours
        = some JsNum.nan ∧
      (rowToRecord ["a@b", "N", "T", "", "", "", "", "", "", "abc", "5", ""]).estimatedHours
        ≠ none :=
  (rowToRecord_nonnumeric_cells_nan
    ["a@b", "N", "T", "", "", "", "", "", "", "abc", "5", ""]).1
    (by decide) (by decide)

/-! ## Claim C4 -/

/-- Claim C4, counterexample: on a 12-cell row whose status cell (position
4) is empty, the `recordToRow` / `rowToRecord` round trip does not
reproduce the original cell — the empty status is normalized to
"Not Started" — so a field other than `lastUpdated` changes. -/
theorem roundTrip_changes_empty_status_cell :
    cellAt
        (recordToRow
          (rowToRecord
            ["a@b", "N", "T", "D", "", "2024-01-01", "old", "High", "", "", "", ""])
          "2025-06-01") 4 ≠
      cellAt ["a@b", "N", "T", "D", "", "2024-01-01", "old", "High", "", "", "", ""] 4 := by
  decide

/-- Claim C4 (amended): the round trip `recordToRow` after `rowToRecord`
reproduces the original cell values at every position except 6
(`lastUpdated`), which is always replaced by the current date `today`,
provided the status and priority cells are non-empty (empty ones are
normalized to their defaults "Not Started" / "Medium") and each hours cell
is either empty or rendered back identically by `parseInt`/`toString`
(otherwise it is normalized to that rendering, e.g. "abc" to "NaN"). -/
theorem roundTrip_stable_except_lastUpdated (cells : List String) (today : String)
    (h4 : cellAt cells 4 ≠ "") (h7 : cellAt cells 7 ≠ "")
    (h9 : cellAt cells 9 = "" ∨ (jsParseInt (cellAt cells 9)).toStr = cellAt cells 9)
    (h10 : cellAt cells 10 = "" ∨ (jsParseInt (cellAt cells 10)).toStr = cellAt cells 10) :
    recordToRow (rowToRecord cells) today =
      [cellAt cells 0, cellAt cells 1, cellAt cells 2, cellAt cells 3,
       cellAt cells 4, cellAt cells 5, today, cellAt cells 7,
       cellAt cells 8, cellAt cells 9, cellAt cells 10, cellAt cells 11] := by
  have e9 : hoursCell (if cellAt cells 9 = "" then none
      else some (jsParseInt (cellAt cells 9))) = cellAt cells 9 := by
    by_cases hc : cellAt cells 9 = ""
    · simp [hoursCell, hc]
    · rcases h9 with h | h
      · exact absurd h hc
      · simp [hoursCell, hc, h]
  have e10 : hoursCell (if cellAt cells 10 = "" then none
      else some (jsParseInt (cellAt cells 10))) = cellAt cells 10 := by
    by_cases hc : cellAt cells 10 = ""
    · simp [hoursCell, hc]
    · rcases h10 with h | h
      · exact absurd h hc
      · simp [hoursCell, hc, h]
  simp [recordToRow, rowToRecord, h4, h7, e9, e10]

/-- Witness for claim C4's amended theorem at a concrete row. -/
theorem roundTrip_stable_except_lastUpdated_witness :
    recordToRow
        (rowToRecord
          ["a@b", "N", "T", "D", "In Progress", "2024-01-01", "old", "High",
           "Eng", "12", "7", "note"])
        "2025-06-01" =
      ["a@b", "N", "T", "D", "In Progress", "2024-01-01", "2025-06-01", "High",
       "Eng", "12", "7", "note"] :=
  roundTrip_stable_except_lastUpdated
    ["a@b", "N", "T", "D", "In Progress", "2024-01-01", "old", "High",
     "Eng", "12", "7", "note"]
    "2025-06-01" (by decide) (by decide) (Or.inr (by decide)) (Or.inr (by decide))

/-! ## Claim C8 -/

/-- Claim C8 (confirmed): on any fetch failure — metadata error, missing
first worksheet, or values error — `getAllProjects` returns the empty list
instead of propagating the error. -/
theorem getAllProjects_soft_fails_to_empty (env : SheetEnv)
    (h : env.metadataOk = false ∨ env.hasSheet = false ∨ env.valuesOk = false) :
    getAllProjects env = [] := by
  rcases h with h | h | h <;> simp [getAllProjects, h]

/-- Witness for claim C8's theorem at a concrete failing environment. -/
theorem getAllProjects_soft_fails_to_empty_witness :
    getAllProjects ⟨true, false, true, [["a", "n", "T"]]⟩ = [] :=
  getAllProjects_soft_fails_to_empty ⟨true, false, true, [["a", "n", "T"]]⟩
    (Or.inr (Or.inl rfl))

/-! ## Claim C9 -/

/-- Claim C9 (confirmed): `getUserProjects e` equals `getAllProjects`
filtered by exact, case-sensitive string equality on the email field; it
is a subsequence of `getAllProjects`, and every element of it has email
`e`. -/
theorem getUserProjects_is_filter_of_getAllProjects (env : SheetEnv) (e : String) :
    getUserProjects env e =
        (getAllProjects env).filter (fun project => project.email == e) ∧
      List.Sublist (getUserProjects env e) (getAllProjects env) ∧
      (getUserProjects env e).all (fun project => project.email == e) = true := by
  refine ⟨rfl, List.filter_sublist _, ?_⟩
  rw [List.all_eq_true]
  intro p hp
  exact (List.mem_filter.mp hp).2

/-! ## Claim C1 -/

/-- Claim C1, counterexample: an authenticated employee posting a body whose
email is present and differs from the authenticated email gets a 403
access-denied response — the handler does not replace the field and proceed
to upsert. -/
theorem postAddProject_rejects_foreign_email_at_instance :
    postAddProject (some ⟨"me@x.com", "Me", "employee"⟩)
        ⟨"other@x.com", "", "T", "", "", "", "", "", "", none, none, ""⟩ =
      RouteOutcome.response 403 "You can only update your own projects" := by
  decide

/-- Claim C1 (amended): for every authenticated employee request to
POST /api/projects/add whose body carries a non-empty email different from
the authenticated email, the handler answers 403 ("You can only update your
own projects"); only a body with an absent or empty email has its email and
name forced to the authenticated identity. -/
theorem postAddProject_foreign_email_denied (s : Session) (pd : ProjectEntry)
    (hse : s.email ≠ "") (hr : s.role ≠ "hr")
    (ht : jsTrim pd.projectTitle ≠ "")
    (he : pd.email ≠ "") (hne : pd.email ≠ s.email) :
    postAddProject (some s) pd =
      RouteOutcome.response 403 "You can only update your own projects" := by
  simp [postAddProject, hse, ht, hr, he, hne]

/-- Witness for claim C1's amended theorem at a concrete session and body. -/
theorem postAddProject_foreign_email_denied_witness :
    postAddProject (some ⟨"hr-less@x.com", "Em", "employee"⟩)
        ⟨"boss@x.com", "", "Plan", "", "", "", "", "", "", none, none, ""⟩ =
      RouteOutcome.response 403 "You can only update your own projects" :=
  postAddProject_foreign_email_denied ⟨"hr-less@x.com", "Em", "employee"⟩
    ⟨"boss@x.com", "", "Plan", "", "", "", "", "", "", none, none, ""⟩
    (by decide) (by decide) (by decide) (by decide) (by decide)

/-! ## Claim C3 -/

/-- Claim C3, counterexample: an upsert that fails the required-fields
validation has already issued a remote call — the sheet-metadata fetch
(`spreadsheets.get`) precedes the validation check. -/
theorem addOrUpdateProject_remote_call_before_validation :
    (addOrUpdateProject ⟨true, true, true, []⟩
          ⟨"", "n", "T", "", "", "", "", "", "", none, none, ""⟩
          "2025-06-01").result =
        Except.error "Email and project title are required" ∧
      RemoteCall.getMetadata ∈
        (addOrUpdateProject ⟨true, true, true, []⟩
            ⟨"", "n", "T", "", "", "", "", "", "", none, none, ""⟩
            "2025-06-01").calls ∧
      (addOrUpdateProject ⟨true, true, true, []⟩
          ⟨"", "n", "T", "", "", "", "", "", "", none, none, ""⟩
          "2025-06-01").calls ≠ [] := by
  decide

/-- Claim C3 (amended): a ValidationError of `addOrUpdateProject` (empty
email or projectTitle) is detected after the sheet-metadata fetch but
before the row-values fetch and before any remote write: the calls issued
are exactly the one metadata fetch, and the sheet is unchanged. -/
theorem addOrUpdateProject_validation_before_values_and_writes
    (env : SheetEnv) (pd : ProjectEntry) (today : String)
    (hm : env.metadataOk = true) (hs : env.hasSheet = true)
    (hv : pd.email = "" ∨ pd.projectTitle = "") :
    (addOrUpdateProject env pd today).result =
        Except.error "Email and project title are required" ∧
      (addOrUpdateProject env pd today).calls = [RemoteCall.getMetadata] ∧
      (addOrUpdateProject env pd today).rows = env.rows := by
  unfold addOrUpdateProject
  rw [hm, hs]
  simp only [Bool.not_true, Bool.false_eq_true, if_false, if_pos hv]
  exact ⟨trivial, trivial, trivial⟩

/-- Witness for claim C3's amended theorem at a concrete input. -/
theorem addOrUpdateProject_validation_before_values_and_writes_witness :
    (addOrUpdateProject ⟨true, true, true, [["a", "n", "T"]]⟩
          ⟨"", "n", "T2", "", "", "", "", "", "", none, none, ""⟩
          "2025-06-01").result =
        Except.error "Email and project title are required" ∧
      (addOrUpdateProject ⟨true, true, true, [["a", "n", "T"]]⟩
            ⟨"", "n", "T2", "", "", "", "", "", "", none, none, ""⟩
            "2025-06-01").calls = [RemoteCall.getMetadata] ∧
      (addOrUpdateProject ⟨true, true, true, [["a", "n", "T"]]⟩
          ⟨"", "n", "T2", "", "", "", "", "", "", none, none, ""⟩
          "2025-06-01").rows = [["a", "n", "T"]] :=
  addOrUpdateProject_validation_before_values_and_writes
    ⟨true, true, true, [["a", "n", "T"]]⟩
    ⟨"", "n", "T2", "", "", "", "", "", "", none, none, ""⟩
    "2025-06-01" rfl rfl (Or.inl rfl)

/-! ## Claim C7 -/

/-- Claim C7 (confirmed): an upsert whose email or projectTitle is empty or
absent fails with the ValidationError "Email and project title are
required", issues no remote write of any kind, and leaves the backing rows
unchanged. -/
theorem addOrUpdateProject_missing_fields_validation_error
    (env : SheetEnv) (pd : ProjectEntry) (today : String)
    (hm : env.metadataOk = true) (hs : env.hasSheet = true)
    (hv : pd.email = "" ∨ pd.projectTitle = "") :
    (addOrUpdateProject env pd today).result =
        Except.error "Email and project title are required" ∧
      ((addOrUpdateProject env pd today).calls.filter RemoteCall.isWrite) = [] ∧
      (addOrUpdateProject env pd today).rows = env.rows := by
  unfold addOrUpdateProject
  rw [hm, hs]
  simp only [Bool.not_true, Bool.false_eq_true, if_false, if_pos hv]
  exact ⟨trivial, rfl, trivial⟩

/-- Witness for claim C7's theorem at a concrete input (empty title). -/
theorem addOrUpdateProject_missing_fields_validation_error_witness :
    (addOrUpdateProject ⟨true, true, false, []⟩
          ⟨"a@b", "n", "", "", "", "", "", "", "", none, none, ""⟩
          "2025-06-01").result =
        Except.error "Email and project title are required" ∧
      ((addOrUpdateProject ⟨true, true, false, []⟩
            ⟨"a@b", "n", "", "", "", "", "", "", "", none, none, ""⟩
            "2025-06-01").calls.filter RemoteCall.isWrite) = [] ∧
      (addOrUpdateProject ⟨true, true, false, []⟩
          ⟨"a@b", "n", "", "", "", "", "", "", "", none, none, ""⟩
          "2025-06-01").rows = [] :=
  addOrUpdateProject_missing_fields_validation_error
    ⟨true, true, false, []⟩ ⟨"a@b", "n", "", "", "", "", "", "", "", none, none, ""⟩
    "2025-06-01" rfl rfl (Or.inr rfl)

/-! ## Claim C6 -/

/-- Claim C6 (confirmed): deleting by an (email, projectTitle) key that
matches no record in the store fails with the NotFound error "Project not
found", issues no remote write, and leaves the backing rows unchanged. -/
theorem deleteProject_not_found_leaves_sheet_unchanged
    (env : SheetEnv) (e t : String)
    (hm : env.metadataOk = true) (hs : env.hasSheet = true)
    (hnm : ∀ p ∈ sheetRecords env.rows, keyMatches e t p = false) :
    (deleteProject env e t).result = Except.error "Project not found" ∧
      ((deleteProject env e t).calls.filter RemoteCall.isWrite) = [] ∧
      (deleteProject env e t).rows = env.rows := by
  have hfind : (getAllProjects env).findIdx? (keyMatches e t) = none := by
    rw [List.findIdx?_eq_none_iff]
    intro p hp
    unfold getAllProjects at hp
    by_cases hV : env.valuesOk
    · rw [hm, hs, hV] at hp
      simp only [Bool.and_self, Bool.true_and, if_true] at hp
      exact hnm p hp
    · simp only [hm, hs, eq_false_of_ne_true hV, Bool.and_false, Bool.true_and,
        Bool.false_eq_true, if_false] at hp
      exact absurd hp (List.not_mem_nil p)
  unfold deleteProject
  rw [hm, hs]
  simp only [Bool.not_true, Bool.false_eq_true, if_false, hfind]
  exact ⟨trivial, by simp [getAllProjectsCalls, hm, hs, RemoteCall.isWrite], trivial⟩

/-- Witness for claim C6's theorem at a concrete store and absent key. -/
theorem deleteProject_not_found_leaves_sheet_unchanged_witness :
    (deleteProject ⟨true, true, true, [["a", "n", "T"]]⟩ "a" "U").result =
        Except.error "Project not found" ∧
      (((deleteProject ⟨true, true, true, [["a", "n", "T"]]⟩ "a" "U").calls.filter
          RemoteCall.isWrite)) = [] ∧
      (deleteProject ⟨true, true, true, [["a", "n", "T"]]⟩ "a" "U").rows =
        [["a", "n", "T"]] :=
  deleteProject_not_found_leaves_sheet_unchanged
    ⟨true, true, true, [["a", "n", "T"]]⟩ "a" "U" rfl rfl (by decide)

/-! ## Claim C5 -/

/-- Claim C5, counterexample: a sheet whose data region holds a row with an
empty first cell (filtered out by the mapper) ahead of the matching row.
Keys are unique before the upsert; the upsert overwrites data-region index
`match index` of the unfiltered rows — the filtered row, not the matching
one — and afterwards two rows carry the key ("a", "T"). -/
theorem addOrUpdateProject_breaks_key_uniqueness_with_filtered_row :
    keysUnique
        (sheetRecords
          [[""], ["a", "n", "T", "", "Not Started", "", "2024-01-01", "Medium",
            "", "", "", ""]]) ∧
      (addOrUpdateProject
          ⟨true, true, true,
            [[""], ["a", "n", "T", "", "Not Started", "", "2024-01-01", "Medium",
              "", "", "", ""]]⟩
          ⟨"a", "n2", "T", "", "", "", "", "", "", none, none, ""⟩
          "2025-06-01").result = Except.ok () ∧
      ¬ keysUnique
          (sheetRecords
            (addOrUpdateProject
                ⟨true, true, true,
                  [[""], ["a", "n", "T", "", "Not Started", "", "2024-01-01",
                    "Medium", "", "", "", ""]]⟩
                ⟨"a", "n2", "T", "", "", "", "", "", "", none, none, ""⟩
                "2025-06-01").rows) := by
  decide

/-- Claim C5 (amended): provided every data-region row has a non-empty
first cell (so the mapper filters nothing and mapped indices coincide with
physical ones), an upsert on a sheet whose (email, projectTitle) keys are
unique preserves that invariant: it scans the mapped rows linearly,
overwrites the matched row in place (range update at spreadsheet row number
match index + 2) when a match exists, and appends a new row only when no
match exists.  With a filtered row present the in-place update can target
the wrong physical row and break the invariant (see the counterexample). -/
theorem addOrUpdateProject_preserves_key_uniqueness
    (env : SheetEnv) (pd : ProjectEntry) (today : String)
    (hm : env.metadataOk = true) (hs : env.hasSheet = true)
    (hV : env.valuesOk = true)
    (hkept : ∀ r ∈ env.rows, cellAt r 0 ≠ "")
    (hu : keysUnique (sheetRecords env.rows))
    (he : pd.email ≠ "") (ht : pd.projectTitle ≠ "") :
    (addOrUpdateProject env pd today).result = Except.ok () ∧
      keysUnique (sheetRecords (addOrUpdateProject env pd today).rows) ∧
      (∀ idx,
        (sheetRecords env.rows).findIdx? (keyMatches pd.email pd.projectTitle) =
            some idx →
          (addOrUpdateProject env pd today).rows =
              env.rows.set idx (recordToRow pd today) ∧
            RemoteCall.updateRow (idx + 2) (recordToRow pd today) ∈
              (addOrUpdateProject env pd today).calls) ∧
      ((sheetRecords env.rows).findIdx? (keyMatches pd.email pd.projectTitle) =
          none →
        (addOrUpdateProject env pd today).rows =
            env.rows ++ [recordToRow pd today] ∧
          RemoteCall.appendRow (recordToRow pd today) ∈
            (addOrUpdateProject env pd today).calls) := by
  have hga : getAllProjects env = sheetRecords env.rows := by
    simp [getAllProjects, hm, hs, hV]
  have hmap : sheetRecords env.rows = env.rows.map rowToRecord :=
    sheetRecords_of_kept hkept
  have hne : ¬(pd.email = "" ∨ pd.projectTitle = "") := by
    rintro (h | h)
    · exact he h
    · exact ht h
  have hkeptRD : cellAt (recordToRow pd today) 0 ≠ "" := he
  have hkeyRD :
      recordKey (rowToRecord (recordToRow pd today)) =
        (pd.email, pd.projectTitle) := recordKey_rowToRecord_recordToRow pd today
  rcases hfind :
      (sheetRecords env.rows).findIdx? (keyMatches pd.email pd.projectTitle)
    with _ | idx
  · -- no match: the new row is appended
    have heq : addOrUpdateProject env pd today =
        { result := Except.ok (),
          calls := (RemoteCall.getMetadata :: getAllProjectsCalls env) ++
            [RemoteCall.appendRow (recordToRow pd today)],
          rows := env.rows ++ [recordToRow pd today] } := by
      unfold addOrUpdateProject
      rw [hm, hs]
      simp only [Bool.not_true, Bool.false_eq_true, if_false, if_neg hne, hga,
        hfind]
    have hnotin :
        (pd.email, pd.projectTitle) ∉
          (env.rows.map rowToRecord).map recordKey := by
      intro hin
      rcases List.mem_map.mp hin with ⟨q, hq, hkq⟩
      have hq' : q ∈ sheetRecords env.rows := by rw [hmap]; exact hq
      have hqardm : keyMatches pd.email pd.projectTitle q = true :=
        keyMatches_eq_true_iff.mpr
          ⟨congrArg Prod.fst hkq, congrArg Prod.snd hkq⟩
      rw [(List.findIdx?_eq_none_iff.mp hfind) q hq'] at hqardm
      exact Bool.false_ne_true hqardm
    have hkeptA : ∀ r ∈ env.rows ++ [recordToRow pd today], cellAt r 0 ≠ "" := by
      intro r hr
      rcases List.mem_append.mp hr with hr | hr
      · exact hkept r hr
      · rw [List.mem_singleton.mp hr]; exact hkeptRD
    have hsrA : sheetRecords (env.rows ++ [recordToRow pd today]) =
        env.rows.map rowToRecord ++ [rowToRecord (recordToRow pd today)] := by
      rw [sheetRecords_of_kept hkeptA, List.map_append]
      rfl
    refine ⟨by rw [heq], ?_, ?_, ?_⟩
    · rw [heq]
      show keysUnique (sheetRecords (env.rows ++ [recordToRow pd today]))
      unfold keysUnique
      rw [hsrA, List.map_append]
      rw [List.nodup_append]
      refine ⟨?_, List.nodup_singleton _, ?_⟩
      · unfold keysUnique at hu
        rw [hmap] at hu
        exact hu
      · intro k hk
        rw [List.map_singleton, hkeyRD, List.mem_singleton]
        intro hkeq
        rw [hkeq] at hk
        exact hnotin hk
    · intro idx hidx
      exact Option.noConfusion hidx
    · intro _
      refine ⟨by rw [heq], ?_⟩
      rw [heq]
      simp
  · -- match at idx: the row at data-region index idx is overwritten
    have hfind' :
        (env.rows.map rowToRecord).findIdx?
            (keyMatches pd.email pd.projectTitle) = some idx := by
      rw [← hmap]; exact hfind
    rcases List.findIdx?_eq_some_iff_getElem.mp hfind' with ⟨hlt, hp, _⟩
    have hidxlt' : idx < env.rows.length := by
      rw [List.length_map] at hlt
      exact hlt
    have heq : addOrUpdateProject env pd today =
        { result := Except.ok (),
          calls := (RemoteCall.getMetadata :: getAllProjectsCalls env) ++
            [RemoteCall.updateRow (idx + 2) (recordToRow pd today)],
          rows := env.rows.set idx (recordToRow pd today) } := by
      unfold addOrUpdateProject
      rw [hm, hs]
      simp only [Bool.not_true, Bool.false_eq_true, if_false, if_neg hne, hga,
        hfind]
    have hkeptS :
        ∀ r ∈ env.rows.set idx (recordToRow pd today), cellAt r 0 ≠ "" := by
      intro r hr
      rcases List.mem_or_eq_of_mem_set hr with hr | hr
      · exact hkept r hr
      · rw [hr]; exact hkeptRD
    refine ⟨by rw [heq], ?_, ?_, ?_⟩
    · rw [heq]
      show keysUnique (sheetRecords (env.rows.set idx (recordToRow pd today)))
      unfold keysUnique
      rw [sheetRecords_of_kept hkeptS, List.map_set, List.map_set, hkeyRD]
      have hu' : ((env.rows.map rowToRecord).map recordKey).Nodup := by
        unfold keysUnique at hu
        rw [hmap] at hu
        exact hu
      have hlen : idx < ((env.rows.map rowToRecord).map recordKey).length := by
        rw [List.length_map]
        exact hlt
      have hpair :
          ((env.rows.map rowToRecord).map recordKey)[idx] =
            (pd.email, pd.projectTitle) := by
        rw [List.getElem_map]
        rcases keyMatches_eq_true_iff.mp hp with ⟨h1, h2⟩
        unfold recordKey
        rw [h1, h2]
      have hset :
          ((env.rows.map rowToRecord).map recordKey).set idx
              (pd.email, pd.projectTitle) =
            (env.rows.map rowToRecord).map recordKey := by
        conv_lhs => rw [← hpair]
        exact list_set_self _ idx hlen
      rw [hset]
      exact hu'
    · intro idx' hidx'
      have hii : idx = idx' := Option.some.inj hidx'
      subst hii
      refine ⟨by rw [heq], ?_⟩
      rw [heq]
      simp
    · intro hnone
      exact Option.noConfusion hnone

/-- Witness for claim C5's amended theorem at a concrete sheet with no
filtered rows: the upsert of an existing key keeps the keys unique. -/
theorem addOrUpdateProject_preserves_key_uniqueness_witness :
    (addOrUpdateProject
          ⟨true, true, true,
            [["a", "n", "T", "", "Not Started", "", "2024-01-01", "Medium",
              "", "", "", ""]]⟩
          ⟨"a", "n2", "T", "", "", "", "", "", "", none, none, ""⟩
          "2025-06-01").result = Except.ok () ∧
      keysUnique
        (sheetRecords
          (addOrUpdateProject
              ⟨true, true, true,
                [["a", "n", "T", "", "Not Started", "", "2024-01-01", "Medium",
                  "", "", "", ""]]⟩
              ⟨"a", "n2", "T", "", "", "", "", "", "", none, none, ""⟩
              "2025-06-01").rows) :=
  ⟨(addOrUpdateProject_preserves_key_uniqueness
      ⟨true, true, true,
        [["a", "n", "T", "", "Not Started", "", "2024-01-01", "Medium",
          "", "", "", ""]]⟩
      ⟨"a", "n2", "T", "", "", "", "", "", "", none, none, ""⟩
      "2025-06-01" rfl rfl rfl (by decide) (by decide) (by decide)
      (by decide)).1,
    (addOrUpdateProject_preserves_key_uniqueness
      ⟨true, true, true,
        [["a", "n", "T", "", "Not Started", "", "2024-01-01", "Medium",
          "", "", "", ""]]⟩
      ⟨"a", "n2", "T", "", "", "", "", "", "", none, none, ""⟩
      "2025-06-01" rfl rfl rfl (by decide) (by decide) (by decide)
      (by decide)).2.1⟩

/-! ## Claim C10 -/

/-- Claim C10 (confirmed): with zero projects `getProjectStats` returns a
completion rate of 0 (the guard `totalProjects > 0` prevents the division);
with a non-empty project list the rate is exactly
completedProjects / totalProjects × 100 in exact rational arithmetic, and
the divisor is non-zero. -/
theorem getProjectStats_completionRate_exact (env : SheetEnv) :
    ((getAllProjects env).length = 0 →
        (getProjectStats env).completionRate = 0) ∧
      ((getAllProjects env).length ≠ 0 →
        ((getProjectStats env).totalProjects : ℚ) ≠ 0 ∧
          (getProjectStats env).completionRate =
            ((getProjectStats env).completedProjects : ℚ) /
              ((getProjectStats env).totalProjects : ℚ) * 100) := by
  constructor
  · intro h
    simp [getProjectStats, h]
  · intro h
    have hp : 0 < (getAllProjects env).length := Nat.pos_of_ne_zero h
    constructor
    · simp only [getProjectStats]
      exact_mod_cast h
    · simp [getProjectStats, hp]

/-- Witness for claim C10's theorem at a concrete store holding the spec's
test vector of four projects, two of them completed. -/
theorem getProjectStats_completionRate_exact_witness :
    (getAllProjects
          ⟨true, true, true,
            [["a", "", "T", "", "Completed"], ["a", "", "U", "", "Completed"],
              ["a", "", "V", "", "In Progress"],
              ["a", "", "W", "", "Not Started"]]⟩).length ≠ 0 ∧
      (getProjectStats
          ⟨true, true, true,
            [["a", "", "T", "", "Completed"], ["a", "", "U", "", "Completed"],
              ["a", "", "V", "", "In Progress"],
              ["a", "", "W", "", "Not Started"]]⟩).completionRate =
        ((getProjectStats
            ⟨true, true, true,
              [["a", "", "T", "", "Completed"], ["a", "", "U", "", "Completed"],
                ["a", "", "V", "", "In Progress"],
                ["a", "", "W", "", "Not Started"]]⟩).completedProjects : ℚ) /
          ((getProjectStats
              ⟨true, true, true,
                [["a", "", "T", "", "Completed"], ["a", "", "U", "", "Completed"],
                  ["a", "", "V", "", "In Progress"],
                  ["a", "", "W", "", "Not Started"]]⟩).totalProjects : ℚ) * 100 :=
  ⟨by decide,
    ((getProjectStats_completionRate_exact
        ⟨true, true, true,
          [["a", "", "T", "", "Completed"], ["a", "", "U", "", "Completed"],
            ["a", "", "V", "", "In Progress"],
            ["a", "", "W", "", "Not Started"]]⟩).2 (by decide)).2⟩

end EmployeeDashboard
